import Mathlib

/-!
# Verification of the draw-things-mcp-cursor request pipeline

Shallow embedding of the repository's request-normalization, duplicate-
suppression and generation-client layers, together with theorems settling
the specification claims.

The repository contains several near-duplicate drafts of the same bridge
program.  We embed the two drafts the claims cite:

* `Part003` — the bridge draft in `src/unnamed/part_003` (request handler
  `handleImageGeneration`, prompt/correlation-id dedup with a 2000 ms
  suppression window, line handler `rl.on('line')`, image saving).
* `IndexJs` — the draft in `src/index.js` (same shape, but its
  `isPromptDuplicate` has no recency window and its handler silently drops
  duplicates).
* `TsService` — `generateImage` of
  `src/services/drawThings/drawThingsService.ts` (bounded retry loop).
* `JsService` — `generateImage` and `checkApiConnection` of
  `src/services/drawThings/drawThingsService.js` (no retry loop).

JavaScript `Set`/`Map` state is modelled by insertion-ordered association
lists, timestamps by `Nat` milliseconds, and the outcome of one HTTP
round-trip by an explicit `WireOutcome` value.  Axios delivery semantics
(a response whose status fails the instance's `validateStatus` predicate is
delivered as a rejection carrying the response) are made explicit because
the two service drafts configure `validateStatus` differently.
-/

namespace DrawThingsMCP

/-! ## JSON values (the shapes produced by `JSON.parse`) -/

/-- A parsed JSON value.  Numbers keep their raw literal text: the programs
under study never do arithmetic on them, they only test truthiness and pass
them through. -/
inductive JsonValue where
  | jnull
  | jbool (b : Bool)
  | jnum (raw : String)
  | jstr (s : String)
  | jarr (elems : List JsonValue)
  | jobj (fields : List (String × JsonValue))

/-- Field lookup on a JSON object (`JSON.parse` keeps the last duplicate
key, so we take the last binding).  Non-objects have no fields. -/
def JsonValue.getField : JsonValue → String → Option JsonValue
  | .jobj fields, k => (fields.reverse.find? (fun p => p.1 = k)).map (·.2)
  | _, _ => none

/-- Whether the mantissa of a JSON number literal is zero (`0`, `-0.00`,
`0e3` are all zero). -/
def jnumIsZero (raw : String) : Bool :=
  (raw.toList.takeWhile (fun c => c ≠ 'e' ∧ c ≠ 'E')).all
    (fun c => ¬ c.isDigit ∨ c = '0')

/-- JavaScript truthiness of a JSON value. -/
def JsonValue.truthy : JsonValue → Bool
  | .jnull => false
  | .jbool b => b
  | .jnum raw => ¬ jnumIsZero raw
  | .jstr s => s ≠ ""
  | .jarr _ => true
  | .jobj _ => true

/-- Truthiness of an optional field (`undefined` is falsy). -/
def truthyOpt (v : Option JsonValue) : Bool :=
  match v with
  | some w => w.truthy
  | none => false

/-- A parameter bag, keeping JavaScript object key insertion order. -/
abbrev Params := List (String × JsonValue)

/-- `obj[k]` on a parameter bag. -/
def lookupParam (ps : Params) (k : String) : Option JsonValue :=
  (ps.find? (fun p => p.1 = k)).map (·.2)

/-- `obj[k] = v` on a parameter bag: updates in place when the key exists
(original position kept, as for JS objects), appends otherwise. -/
def setParam (ps : Params) (k : String) (v : JsonValue) : Params :=
  if ps.any (fun p => p.1 = k) then
    ps.map (fun p => if p.1 = k then (k, v) else p)
  else ps ++ [(k, v)]

/-- The string value of a `prompt` entry, when it is a JSON string.  The
claims under study only exercise string prompts; a non-string prompt value
would raise a `TypeError` inside `isPromptDuplicate` in the source and is
outside this embedding's quantification. -/
def promptStr (ps : Params) : Option String :=
  match lookupParam ps "prompt" with
  | some (.jstr s) => some s
  | _ => none

/-! JS string primitives, implemented by structural recursion over the
character list (ASCII-faithful, which covers every input the claims
exercise). -/

def jsWhitespace (c : Char) : Bool :=
  c.toNat = 32 ∨ (9 ≤ c.toNat ∧ c.toNat ≤ 13)

/-- `s.trim()`. -/
def jsTrim (s : String) : String :=
  String.mk (((s.data.dropWhile jsWhitespace).reverse.dropWhile jsWhitespace).reverse)

def lowerChar (c : Char) : Char :=
  if 'A' ≤ c ∧ c ≤ 'Z' then Char.ofNat (c.toNat + 32) else c

/-- `s.toLowerCase()`. -/
def jsToLower (s : String) : String := String.mk (s.data.map lowerChar)

def startsWithList : List Char → List Char → Bool
  | _, [] => true
  | [], _ :: _ => false
  | c :: cs, d :: ds => c = d && startsWithList cs ds

def containsList : List Char → List Char → Bool
  | [], needle => needle.isEmpty
  | c :: rest, needle => startsWithList (c :: rest) needle || containsList rest needle

/-- `haystack.includes(needle)`. -/
def containsSub (haystack needle : String) : Bool :=
  containsList haystack.data needle.data

/-- `s.startsWith(head)`. -/
def jsStartsWith (s head : String) : Bool := startsWithList s.data head.data

/-! ## Duplicate-suppression state

Both bridge drafts keep one `Set` of processed correlation ids and one
`Map` from normalized prompt text to last-seen timestamp, both bounded to
100 entries with oldest-first eviction. -/

structure DedupState where
  processedRequestIds : List String
  processedPrompts : List (String × Nat)
deriving Repr, DecidableEq

def DedupState.empty : DedupState := ⟨[], []⟩

def REQUEST_HISTORY_LIMIT : Nat := 100

def PROMPT_HISTORY_EXPIRE_MS : Nat := 60000

/-- `Map.prototype.get`. -/
def mapGet (m : List (String × Nat)) (k : String) : Option Nat :=
  (m.find? (fun p => p.1 = k)).map (·.2)

/-- `Map.prototype.set`: an existing key keeps its position and gets the
new value; a new key is appended. -/
def mapSet (m : List (String × Nat)) (k : String) (v : Nat) : List (String × Nat) :=
  if m.any (fun p => p.1 = k) then
    m.map (fun p => if p.1 = k then (k, v) else p)
  else m ++ [(k, v)]

/-- `hasRequestBeenProcessed` (identical in both drafts). -/
def hasRequestBeenProcessed (st : DedupState) (requestId : String) : Bool :=
  st.processedRequestIds.contains requestId

/-- `markRequestAsProcessed` (identical in both drafts): insert into the
set, then evict the oldest entry if the size exceeds the limit. -/
def markRequestAsProcessed (st : DedupState) (requestId : String) : DedupState :=
  let ids :=
    if st.processedRequestIds.contains requestId then st.processedRequestIds
    else st.processedRequestIds ++ [requestId]
  let ids := if ids.length > REQUEST_HISTORY_LIMIT then ids.drop 1 else ids
  { st with processedRequestIds := ids }

namespace Part003

/-- `isPromptDuplicate` from `src/unnamed/part_003` (lines 270–306):
falsy prompts are never duplicates; entries older than 60 s are purged;
the normalized (trimmed, lowercased) prompt counts as a duplicate only if
its recorded timestamp is truthy and less than 2000 ms old; otherwise the
current timestamp is recorded (with oldest-first eviction past 100
entries). -/
def isPromptDuplicate (now : Nat) (promptContent : Option String)
    (st : DedupState) : Bool × DedupState :=
  match promptContent with
  | none => (false, st)
  | some s =>
    if s = "" then (false, st)
    else
      let cleaned := st.processedPrompts.filter
        (fun p => ¬ (now - p.2 > PROMPT_HISTORY_EXPIRE_MS))
      let normalizedPrompt := jsToLower (jsTrim s)
      match mapGet cleaned normalizedPrompt with
      | some lastProcessed =>
        if lastProcessed ≠ 0 ∧ now - lastProcessed < 2000 then
          (true, { st with processedPrompts := cleaned })
        else
          let m1 := mapSet cleaned normalizedPrompt now
          let m2 := if m1.length > REQUEST_HISTORY_LIMIT then m1.drop 1 else m1
          (false, { st with processedPrompts := m2 })
      | none =>
        let m1 := mapSet cleaned normalizedPrompt now
        let m2 := if m1.length > REQUEST_HISTORY_LIMIT then m1.drop 1 else m1
        (false, { st with processedPrompts := m2 })

end Part003

namespace IndexJs

/-- `isPromptDuplicate` from `src/index.js` (lines 430–459): like the
`part_003` version but with no recency window — any unexpired entry for
the normalized prompt counts as a duplicate. -/
def isPromptDuplicate (now : Nat) (promptContent : Option String)
    (st : DedupState) : Bool × DedupState :=
  match promptContent with
  | none => (false, st)
  | some s =>
    if s = "" then (false, st)
    else
      let cleaned := st.processedPrompts.filter
        (fun p => ¬ (now - p.2 > PROMPT_HISTORY_EXPIRE_MS))
      let normalizedPrompt := jsToLower (jsTrim s)
      if (mapGet cleaned normalizedPrompt).isSome then
        (true, { st with processedPrompts := cleaned })
      else
        let m1 := mapSet cleaned normalizedPrompt now
        let m2 := if m1.length > REQUEST_HISTORY_LIMIT then m1.drop 1 else m1
        (false, { st with processedPrompts := m2 })

end IndexJs

/-! ## Responses, outputs and traces -/

/-- The single element of a response's `content` array (both helpers build
singleton arrays). -/
inductive McpContent where
  | textContent (text : String)
  | imageContent (data : String) (mimeType : String)
deriving Repr, DecidableEq

/-- The `result` object passed to `sendJsonRpcResponse`: the content item,
the `isError` flag of `createErrorResponse`, and the `imageSavedPath`
field the `part_003` handler attaches on success. -/
structure McpResponse where
  content : McpContent
  isErrorFlag : Bool
  imageSavedPath : Option String
deriving Repr, DecidableEq

/-- `createErrorResponse` (identical in both drafts). -/
def createErrorResponse (message : String) : McpResponse :=
  ⟨.textContent message, true, none⟩

/-- `createImageResponse` (identical in both drafts). -/
def createImageResponse (imageData : String) : McpResponse :=
  ⟨.imageContent imageData "image/png", false, none⟩

/-- One line written to standard output. -/
inductive Output where
  | rpcResult (id : String) (result : McpResponse)
  | rpcError (id : String) (code : Int) (message : String) (data : String)
  | rawLine (line : String)
  | forwarded
deriving Repr, DecidableEq

/-- Node's forgiving base64 decoding (`Buffer.from(s, 'base64')`): characters
outside the base64 alphabet are skipped; remaining sextets are packed into
bytes, a trailing group of 2 or 3 sextets yielding 1 or 2 bytes. -/
def base64CharVal (c : Char) : Option Nat :=
  if 'A' ≤ c ∧ c ≤ 'Z' then some (c.toNat - 65)
  else if 'a' ≤ c ∧ c ≤ 'z' then some (c.toNat - 71)
  else if '0' ≤ c ∧ c ≤ '9' then some (c.toNat + 4)
  else if c = '+' then some 62
  else if c = '/' then some 63
  else none

def sextetsToBytes : List Nat → List Nat
  | a :: b :: c :: d :: rest =>
    (a * 4 + b / 16) :: ((b % 16) * 16 + c / 4) :: ((c % 4) * 64 + d) ::
      sextetsToBytes rest
  | [a, b] => [a * 4 + b / 16]
  | [a, b, c] => [a * 4 + b / 16, (b % 16) * 16 + c / 4]
  | _ => []

def base64Decode (s : String) : List Nat :=
  sextetsToBytes (s.toList.filterMap base64CharVal)

/-- The result shape of the TypeScript service's `generateImage`
(`drawThingsService.ts`): `{ isError, errorMessage?, imageData?,
parameters? }` (the `parameters` echo is not inspected by any caller the
claims cite and is omitted). -/
structure TsResult where
  isError : Bool
  errorMessage : Option String
  imageData : Option String
deriving Repr, DecidableEq

/-- One call to `drawThingsService.generateImage`, recording the parameter
bag passed and the dedup table at the moment of the call. -/
structure GenCall where
  params : Params
  tableAtCall : DedupState

/-- The observable effects of handling one request: the dedup state left
behind, the lines written to standard output, the generation calls issued,
and the image files written (path, decoded bytes). -/
structure Trace where
  state : DedupState
  outputs : List Output
  genCalls : List GenCall
  fileWrites : List (String × List Nat)

def isAsciiAlnum (c : Char) : Bool :=
  ('a' ≤ c ∧ c ≤ 'z') ∨ ('A' ≤ c ∧ c ≤ 'Z') ∨ ('0' ≤ c ∧ c ≤ '9')

namespace Part003

/-- `prompt.substring(0, 30).replace(/[^a-zA-Z0-9]/g, '_')` from the
`part_003` handler's save step. -/
def safePromptOf (prompt : String) : String :=
  String.mk ((prompt.toList.take 30).map (fun c => if isAsciiAlnum c then c else '_'))

/-- `path.join('images', safePrompt_timestamp.png)`. -/
def imagePathFor (prompt : String) (timestampStr : String) : String :=
  "images/" ++ safePromptOf prompt ++ "_" ++ timestampStr ++ ".png"

/-- Lines 605–608 of the handler: a truthy `random_string` that is the only
key is promoted to `prompt` and deleted. -/
def promoteRandomString (ps : Params) : Params :=
  match lookupParam ps "random_string" with
  | some v => if v.truthy ∧ ps.length = 1 then [("prompt", v)] else ps
  | none => ps

/-- Lines 612–614 of the handler: the prompt-duplicate gate.  The
`isPromptDuplicate` call (with its table side effects) only runs when the
bag has at most one key; the request is treated as a duplicate when that
call returns true and the request id does not contain `retry`. -/
def dupGate (now : Nat) (requestId : String) (ps : Params)
    (st : DedupState) : Bool × DedupState :=
  let d :=
    if ps.length ≤ 1 then isPromptDuplicate now (promptStr ps) st
    else (false, st)
  (d.1 && ! containsSub requestId "retry", d.2)

/-- `handleImageGeneration` from `src/unnamed/part_003` (lines 586–670).
`gen` is the outcome `drawThingsService.generateImage` would return for
this call and `saveFail` the outcome of `saveImage` (`none` = saved,
`some msg` = rejected with that message); both are inputs of the
environment, letting the handler's control flow stay pure. -/
def handleImageGeneration (st : DedupState) (parameters : Option Params)
    (requestId : String) (now : Nat) (timestampStr : String)
    (gen : TsResult) (saveFail : Option String) : Trace :=
  if hasRequestBeenProcessed st requestId then ⟨st, [], [], []⟩
  else
    let st1 := markRequestAsProcessed st requestId
    let userParams := promoteRandomString (parameters.getD [])
    let gate := dupGate now requestId userParams st1
    let st2 := gate.2
    if gate.1 then
      ⟨st2, [.rpcResult requestId
        (createErrorResponse "Duplicate request detected and skipped")], [], []⟩
    else
      let genCalls := [⟨userParams, st2⟩]
      if gen.isError then
        ⟨st2, [.rpcResult requestId
          (createErrorResponse (gen.errorMessage.getD "undefined"))], genCalls, []⟩
      else if gen.imageData = none ∨ gen.imageData = some "" then
        ⟨st2, [.rpcResult requestId
          (createErrorResponse "No image data returned from generation")], genCalls, []⟩
      else
        let imageData := gen.imageData.getD ""
        let prompt :=
          match promptStr userParams with
          | some s => if s = "" then "generated-image" else s
          | none => "generated-image"
        let imagePath := imagePathFor prompt timestampStr
        match saveFail with
        | none =>
          let resp := { createImageResponse imageData with imageSavedPath := some imagePath }
          ⟨st2, [.rpcResult requestId resp], genCalls,
            [(imagePath, base64Decode imageData)]⟩
        | some msg =>
          ⟨st2, [.rpcResult requestId
            (createErrorResponse ("Failed to save image: " ++ msg))], genCalls, []⟩

end Part003

/-- The result shape of the JavaScript service's `generateImage`
(`drawThingsService.js`), i.e. `ImageGenerationResultSchema`:
`{ status, images?, parameters?, error? }`. -/
structure JsResult where
  status : Nat
  images : Option (List String)
  parameters : Option Params
  error : Option String

namespace IndexJs

/-- `prompt.replace(/[^a-z0-9]/gi, '_').substring(0, 30)` from the
`index.js` handler's save step. -/
def safePromptOf (prompt : String) : String :=
  String.mk ((prompt.toList.map (fun c => if isAsciiAlnum c then c else '_')).take 30)

def imagePathFor (prompt : String) (timestampStr : String) : String :=
  "images/" ++ safePromptOf prompt ++ "_" ++ timestampStr ++ ".png"

/-- Line 665 of `index.js`: `parameters && parameters.prompt &&
isPromptDuplicate(parameters.prompt)`.  Non-string prompt values (which
would raise a `TypeError` inside `isPromptDuplicate` in the source) are
outside this embedding's quantification. -/
def promptGate (now : Nat) (parameters : Option Params)
    (st : DedupState) : Bool × DedupState :=
  match parameters with
  | none => (false, st)
  | some ps =>
    match lookupParam ps "prompt" with
    | some (.jstr s) =>
      if s ≠ "" then isPromptDuplicate now (some s) st else (false, st)
    | _ => (false, st)

/-- `handleImageGeneration` from `src/index.js` (lines 656–749), with the
generation outcome and the save outcome supplied by the environment as in
`Part003.handleImageGeneration`. -/
def handleImageGeneration (st : DedupState) (parameters : Option Params)
    (requestId : String) (now : Nat) (timestampStr : String)
    (gen : JsResult) (saveFail : Option String) : Trace :=
  if hasRequestBeenProcessed st requestId then ⟨st, [], [], []⟩
  else
    let gate := promptGate now parameters st
    if gate.1 then ⟨gate.2, [], [], []⟩
    else
      let st2 := markRequestAsProcessed gate.2 requestId
      let genCalls := [⟨parameters.getD [], st2⟩]
      let errTruthy := match gen.error with | some e => e ≠ "" | none => false
      if gen.status ≥ 400 ∨ errTruthy = true then
        let msg :=
          match gen.error with
          | some e => if e = "" then "Failed to generate image" else e
          | none => "Failed to generate image"
        ⟨st2, [.rpcResult requestId (createErrorResponse msg)], genCalls, []⟩
      else
        match gen.images with
        | some (img :: _) =>
          let prompt :=
            match parameters.bind (fun ps => promptStr ps) with
            | some s => if s = "" then "image" else s
            | none => "image"
          let imagePath := imagePathFor prompt timestampStr
          match saveFail with
          | none =>
            ⟨st2, [.rpcResult requestId (createImageResponse img)], genCalls,
              [(imagePath, base64Decode img)]⟩
          | some _ =>
            ⟨st2, [.rpcResult requestId (createImageResponse img)], genCalls, []⟩
        | _ =>
          ⟨st2, [.rpcResult requestId
            (createErrorResponse "No images were generated")], genCalls, []⟩

end IndexJs

/-! ## HTTP round-trips and axios delivery semantics -/

/-- What the wire does for one HTTP request: either a served response
(status plus the parsed body's `images` array and optional `error` field)
or a transport-level failure (`ECONNREFUSED`, `ETIMEDOUT`, …) carrying the
error's `code` and `message`. -/
inductive WireOutcome where
  | response (status : Nat) (images : List String) (error : Option String)
  | transportError (code : String) (message : String)
deriving Repr, DecidableEq

/-- What the awaiting caller sees. -/
inductive Delivered where
  | resolved (status : Nat) (images : List String) (error : Option String)
  | rejectedResponse (status : Nat) (error : Option String) (message : String)
  | rejectedTransport (code : String) (message : String)
deriving Repr, DecidableEq

/-- Axios delivery: a served response whose status passes the instance's
`validateStatus` predicate resolves; otherwise the promise rejects with an
`AxiosError` that carries the response and the message
`Request failed with status code N` (and a non-network `code`, so it never
equals `ECONNREFUSED`/`ETIMEDOUT`); a transport failure rejects with its
own code and message. -/
def axiosDeliver (validateStatus : Nat → Bool) : WireOutcome → Delivered
  | .response status imgs err =>
    if validateStatus status then .resolved status imgs err
    else .rejectedResponse status err
      ("Request failed with status code " ++ toString status)
  | .transportError code msg => .rejectedTransport code msg

/-- The `validateStatus` governing `drawThingsService.ts`: its constructor
(lines 46–50) creates the axios instance with no `validateStatus`, so
axios's documented default — resolve only 2xx — applies. -/
def tsValidateStatus (status : Nat) : Bool := 200 ≤ status ∧ status < 300

/-- The `validateStatus` of `drawThingsService.js` (lines 19–21):
`status >= 200 && status < 500`. -/
def jsValidateStatus (status : Nat) : Bool := 200 ≤ status ∧ status < 500

namespace TsService

def maxRetries : Nat := 3

/-- `data:image/png;base64,` prefixing on success
(`drawThingsService.ts` lines 406–409). -/
def formatImageData (imageData : String) : String :=
  if jsStartsWith imageData "data:image/" then imageData
  else "data:image/png;base64," ++ imageData

inductive LoopExit where
  | success (imageData : String)
  | exhausted (lastError : Option String)
deriving Repr, DecidableEq

/-- The retry loop of `generateImage` in `drawThingsService.ts`
(lines 381–434).  `outcomes n` is the wire outcome of the POST issued on
attempt `n`; the result records how the loop exited, the
`connectionEstablished` flag it left behind, and how many POSTs it issued.
A resolved status ≥ 400 sets `lastError` and breaks out of the loop when
the status is < 500; a resolved 2xx with no images sets `lastError` and
continues; a rejection lands in the catch block, which records the error
message, drops `connectionEstablished` on `ECONNREFUSED`/`ETIMEDOUT`, and
continues. -/
def loopGo (validate : Nat → Bool) (outcomes : Nat → WireOutcome) :
    Nat → Nat → Option String → Bool → Nat → LoopExit × Bool × Nat
  | _, 0, lastError, connEst, posts => (.exhausted lastError, connEst, posts)
  | attempt, remaining + 1, _lastError, connEst, posts =>
    let posts1 := posts + 1
    match axiosDeliver validate (outcomes attempt) with
    | .resolved status imgs err =>
      if 400 ≤ status then
        let errTxt :=
          match err with
          | some e => if e = "" then "Unknown error" else e
          | none => "Unknown error"
        let le := some ("API returned error status: " ++ toString status ++ ": " ++ errTxt)
        if status < 500 then (.exhausted le, connEst, posts1)
        else loopGo validate outcomes (attempt + 1) remaining le connEst posts1
      else
        match imgs with
        | [] => loopGo validate outcomes (attempt + 1) remaining
            (some "No images were generated by the API") connEst posts1
        | img :: _ => (.success img, true, posts1)
    | .rejectedResponse _ _ msg =>
      loopGo validate outcomes (attempt + 1) remaining (some msg) connEst posts1
    | .rejectedTransport code msg =>
      let connEst1 := if code = "ECONNREFUSED" ∨ code = "ETIMEDOUT" then false else connEst
      loopGo validate outcomes (attempt + 1) remaining (some msg) connEst1 posts1

/-- The retry portion of `generateImage` in `drawThingsService.ts`
(lines 377–447): run the loop for up to `maxRetries` attempts, then either
return the success result with the prefixed image data, or drop
`connectionEstablished` when the last error mentions a network code and
return the error result.  Returns (result, POST count, final
`connectionEstablished`). -/
def generateImageRetry (validate : Nat → Bool) (outcomes : Nat → WireOutcome)
    (connEst : Bool) : TsResult × Nat × Bool :=
  match loopGo validate outcomes 1 maxRetries none connEst 0 with
  | (.success img, connEst1, posts) =>
    ({ isError := false, errorMessage := none,
       imageData := some (formatImageData img) }, posts, connEst1)
  | (.exhausted lastError, connEst1, posts) =>
    let networkish :=
      match lastError with
      | some le => containsSub le "ECONNREFUSED" || containsSub le "ETIMEDOUT"
      | none => false
    let connEst2 := if networkish then false else connEst1
    let msg :=
      match lastError with
      | some le => if le = "" then "Unknown error after multiple retries" else le
      | none => "Unknown error after multiple retries"
    ({ isError := true, errorMessage := some msg, imageData := none }, posts, connEst2)

end TsService

namespace JsService

/-- Modelled from the spec: the module
`src/services/drawThings/defaultParams.js` is imported by both services but
is not among the sources; §4.4 of the spec says parameter resolution merges
caller parameters over defaults and fills a missing prompt from a default
prompt.  The concrete values are irrelevant to every claim. -/
def defaultPrompt : String := "a beautiful landscape"

/-- Modelled from the spec: see `defaultPrompt`. -/
def defaultParams : Params :=
  [("prompt", .jstr defaultPrompt), ("negative_prompt", .jstr ""),
   ("width", .jnum "512"), ("height", .jnum "512"), ("steps", .jnum "20")]

/-- The environment of one probe round: the cached
`connectionEstablished` flag and the wire outcomes of the two candidate
probes (`GET /sdapi/v1/options`, then `GET /`). -/
structure ProbeEnv where
  connEst : Bool
  optionsOutcome : WireOutcome
  rootOutcome : WireOutcome

/-- The root-endpoint fallback inside `checkApiConnection`
(`drawThingsService.js` lines 55–68). -/
def rootCheck (env : ProbeEnv) : Bool × Bool :=
  match axiosDeliver jsValidateStatus env.rootOutcome with
  | .resolved status _ _ =>
    if 200 ≤ status then (true, true) else (false, env.connEst)
  | _ => (false, env.connEst)

/-- `checkApiConnection` from `drawThingsService.js` (lines 32–73): an
established connection short-circuits; otherwise the options endpoint is
probed, then the root endpoint; every failure path returns `false` and
leaves `connectionEstablished` untouched.  Returns (result, new
`connectionEstablished`). -/
def checkApiConnection (env : ProbeEnv) : Bool × Bool :=
  if env.connEst then (true, true)
  else
    match axiosDeliver jsValidateStatus env.optionsOutcome with
    | .resolved status _ _ =>
      if 200 ≤ status ∧ status < 500 then (true, true)
      else rootCheck env
    | _ => rootCheck env

/-- `{...base, ...over}`: keys of `base` in order with overlapping values
taken from `over`, then the new keys of `over`. -/
def mergeObjs (base over : Params) : Params :=
  over.foldl (fun acc p => setParam acc p.1 p.2) base

/-- The environment of one `generateImage` call: the probe environment,
the outcome of the zod `safeParse` of the caller's parameters (`none` =
validation failed; zod is an external library, so its verdict is an
input), the wire outcome of the generation POST, and the seed
`Math.floor(Math.random() * 2147483647)` would draw. -/
structure GenEnv where
  probe : ProbeEnv
  parseOutcome : Option Params
  postOutcome : WireOutcome
  randomSeed : Nat

/-- `generateImage` from `drawThingsService.js` (lines 108–214), returning
the result together with the number of generation POSTs issued.  Every
branch of the source ends in a `return ImageGenerationResultSchema.parse`
of a literal whose fields are well-typed, so the schema parse cannot throw
and the embedding is a total function. -/
def generateImage (env : GenEnv) : JsResult × Nat :=
  let isConnected := (checkApiConnection env.probe).1
  if ¬ isConnected then
    ({ status := 503, images := none, parameters := none,
       error := some "Draw Things API is not running or cannot be connected. Please make sure Draw Things is running and the API is enabled." }, 0)
  else
    let params := match env.parseOutcome with | none => [] | some p => p
    let params :=
      if params.length = 1 ∧ (lookupParam params "random_string").isSome then []
      else if (lookupParam params "random_string").isSome then
        params.filter (fun p => p.1 ≠ "random_string")
      else params
    let params :=
      match lookupParam params "prompt" with
      | some v => if v.truthy then params else setParam params "prompt" (.jstr defaultPrompt)
      | none => setParam params "prompt" (.jstr defaultPrompt)
    let seed :=
      match lookupParam params "seed" with
      | some v => v
      | none => .jnum (toString env.randomSeed)
    let mergedParams := setParam (mergeObjs defaultParams params) "seed" seed
    match axiosDeliver jsValidateStatus env.postOutcome with
    | .resolved status imgs err =>
      if 400 ≤ status then
        let msg :=
          match err with
          | some e => if e = "" then "API returned error status: " ++ toString status else e
          | none => "API returned error status: " ++ toString status
        ({ status := status, images := none, parameters := none, error := some msg }, 1)
      else
        match imgs with
        | [] =>
          ({ status := 404, images := none, parameters := none,
             error := some "No images were generated by the API" }, 1)
        | _ =>
          ({ status := status, images := some imgs,
             parameters := some mergedParams, error := none }, 1)
    | .rejectedResponse rstatus rerr msg =>
      let m :=
        match rerr with
        | some e => if e = "" then "API error: " ++ msg else e
        | none => "API error: " ++ msg
      ({ status := rstatus, images := none, parameters := none, error := some m }, 1)
    | .rejectedTransport code msg =>
      if code = "ECONNREFUSED" then
        ({ status := 503, images := none, parameters := none,
           error := some "Draw Things API service is not running or cannot be connected. Please make sure Draw Things is running and the API is enabled." }, 1)
      else if code = "ETIMEDOUT" then
        ({ status := 504, images := none, parameters := none,
           error := some "Request timed out, possibly due to long image generation time. The model might be loading or the generation is taking longer than expected." }, 1)
      else
        ({ status := 500, images := none, parameters := none,
           error := some ("Unknown error: " ++ msg) }, 1)

end JsService

/-! ## `JSON.parse` on one input line -/

def isJsonWs (c : Char) : Bool :=
  c = ' ' ∨ c = Char.ofNat 9 ∨ c = Char.ofNat 10 ∨ c = Char.ofNat 13

def skipWs : List Char → List Char
  | [] => []
  | c :: cs => if isJsonWs c then skipWs cs else c :: cs

def hexVal (c : Char) : Option Nat :=
  if '0' ≤ c ∧ c ≤ '9' then some (c.toNat - 48)
  else if 'a' ≤ c ∧ c ≤ 'f' then some (c.toNat - 87)
  else if 'A' ≤ c ∧ c ≤ 'F' then some (c.toNat - 55)
  else none

/-- Parse the body of a JSON string after the opening quote, decoding the
standard escapes; returns the content and the input after the closing
quote. -/
def parseStringBody : List Char → Option (List Char × List Char)
  | [] => none
  | '"' :: cs => some ([], cs)
  | '\\' :: rest =>
    match rest with
    | 'u' :: a :: b :: c :: d :: cs =>
      match hexVal a, hexVal b, hexVal c, hexVal d with
      | some ha, some hb, some hc, some hd =>
        (parseStringBody cs).map
          (fun p => (Char.ofNat (((ha * 16 + hb) * 16 + hc) * 16 + hd) :: p.1, p.2))
      | _, _, _, _ => none
    | e :: cs =>
      let dec : Option Char :=
        if e = '"' then some '"'
        else if e = '\\' then some '\\'
        else if e = '/' then some '/'
        else if e = 'b' then some (Char.ofNat 8)
        else if e = 'f' then some (Char.ofNat 12)
        else if e = 'n' then some (Char.ofNat 10)
        else if e = 'r' then some (Char.ofNat 13)
        else if e = 't' then some (Char.ofNat 9)
        else none
      match dec with
      | some ch => (parseStringBody cs).map (fun p => (ch :: p.1, p.2))
      | none => none
    | [] => none
  | c :: cs =>
    if c.toNat < 32 then none
    else (parseStringBody cs).map (fun p => (c :: p.1, p.2))

def parseDigits : List Char → List Char × List Char
  | [] => ([], [])
  | c :: cs =>
    if c.isDigit then
      let (ds, r) := parseDigits cs
      (c :: ds, r)
    else ([], c :: cs)

def parseFracPart : List Char → Option (List Char × List Char)
  | '.' :: r =>
    match parseDigits r with
    | ([], _) => none
    | (ds, r1) => some ('.' :: ds, r1)
  | cs => some ([], cs)

def parseExpPart : List Char → Option (List Char × List Char)
  | c :: r =>
    if c = 'e' ∨ c = 'E' then
      let (sign, r1) :=
        match r with
        | s :: r2 => if s = '+' ∨ s = '-' then ([s], r2) else (([] : List Char), s :: r2)
        | [] => (([] : List Char), [])
      match parseDigits r1 with
      | ([], _) => none
      | (ds, r2) => some (c :: (sign ++ ds), r2)
    else some ([], c :: r)
  | [] => some ([], [])

/-- Parse a JSON number literal (the exact grammar: no leading zeros, an
optional fraction with at least one digit, an optional exponent), keeping
its raw text. -/
def parseNumberCore (cs : List Char) : Option (String × List Char) :=
  let (neg, cs1) :=
    match cs with
    | '-' :: r => ([('-' : Char)], r)
    | _ => (([] : List Char), cs)
  match cs1 with
  | '0' :: r =>
    if (match r with | c :: _ => c.isDigit | [] => false) then none
    else
      match parseFracPart r with
      | none => none
      | some (fr, r1) =>
        match parseExpPart r1 with
        | none => none
        | some (ex, r2) => some (String.mk (neg ++ ['0'] ++ fr ++ ex), r2)
  | c :: r =>
    if c.isDigit then
      let (ds, r0) := parseDigits r
      match parseFracPart r0 with
      | none => none
      | some (fr, r1) =>
        match parseExpPart r1 with
        | none => none
        | some (ex, r2) => some (String.mk (neg ++ (c :: ds) ++ fr ++ ex), r2)
    else none
  | [] => none

mutual

def parseValue : Nat → List Char → Option (JsonValue × List Char)
  | 0, _ => none
  | fuel + 1, cs =>
    match skipWs cs with
    | [] => none
    | c :: rest =>
      if c = '"' then
        (parseStringBody rest).map (fun p => (.jstr (String.mk p.1), p.2))
      else if c = '{' then parseMembers fuel rest
      else if c = '[' then parseElems fuel rest
      else if c = 't' then
        match rest with
        | 'r' :: 'u' :: 'e' :: r => some (.jbool true, r)
        | _ => none
      else if c = 'f' then
        match rest with
        | 'a' :: 'l' :: 's' :: 'e' :: r => some (.jbool false, r)
        | _ => none
      else if c = 'n' then
        match rest with
        | 'u' :: 'l' :: 'l' :: r => some (.jnull, r)
        | _ => none
      else
        (parseNumberCore (c :: rest)).map (fun p => (.jnum p.1, p.2))

def parseElems : Nat → List Char → Option (JsonValue × List Char)
  | 0, _ => none
  | fuel + 1, cs =>
    match skipWs cs with
    | ']' :: r => some (.jarr [], r)
    | cs1 => parseElemsLoop fuel cs1 []

def parseElemsLoop : Nat → List Char → List JsonValue → Option (JsonValue × List Char)
  | 0, _, _ => none
  | fuel + 1, cs, acc =>
    match parseValue fuel cs with
    | none => none
    | some (v, r) =>
      match skipWs r with
      | ',' :: r1 => parseElemsLoop fuel r1 (v :: acc)
      | ']' :: r1 => some (.jarr (v :: acc).reverse, r1)
      | _ => none

def parseMembers : Nat → List Char → Option (JsonValue × List Char)
  | 0, _ => none
  | fuel + 1, cs =>
    match skipWs cs with
    | '}' :: r => some (.jobj [], r)
    | cs1 => parseMembersLoop fuel cs1 []

def parseMembersLoop : Nat → List Char → List (String × JsonValue) →
    Option (JsonValue × List Char)
  | 0, _, _ => none
  | fuel + 1, cs, acc =>
    match skipWs cs with
    | '"' :: r =>
      match parseStringBody r with
      | none => none
      | some (key, r1) =>
        match skipWs r1 with
        | ':' :: r2 =>
          match parseValue fuel r2 with
          | none => none
          | some (v, r3) =>
            match skipWs r3 with
            | ',' :: r4 => parseMembersLoop fuel r4 ((String.mk key, v) :: acc)
            | '}' :: r4 => some (.jobj ((String.mk key, v) :: acc).reverse, r4)
            | _ => none
        | _ => none
    | _ => none

end

/-- `JSON.parse(line)`: `some` on success, `none` when it throws.  The fuel
is generous; every recursion level corresponds to consumed input. -/
def jsonParse (s : String) : Option JsonValue :=
  match parseValue (3 * s.length + 8) s.toList with
  | some (v, rest) => if skipWs rest = [] then some v else none
  | none => none

/-- Whether an optional JSON value is the string `s` (the shape of a JS
`=== 'literal'` comparison on a possibly-missing field). -/
def isJstrField (v : Option JsonValue) (s : String) : Bool :=
  match v with
  | some (.jstr t) => t = s
  | _ => false

/-- The parameter bag the request handler receives for a `parameters`
field: only a JSON object contributes keys (`Object.keys` of a truthy
non-object primitive is empty, and the handler replaces a falsy value by
`{}`, so everything else behaves like the absent bag). -/
def paramsBag (v : Option JsonValue) : Option Params :=
  match v with
  | some (.jobj fields) => some fields
  | _ => none

/-- The text a JSON id/tool value contributes when used as a string
(the claims only exercise string ids). -/
def jsonText : JsonValue → String
  | .jstr s => s
  | .jnum raw => raw
  | .jbool b => if b then "true" else "false"
  | _ => ""

namespace Part003

/-- The normalized request `processRequest` returns (the fields its
callers read; the forwarded full object is not inspected further). -/
structure NormReq where
  id : JsonValue
  method : JsonValue
  params : Option JsonValue

/-- `processRequest` from `src/unnamed/part_003` (lines 377–428): a plain
string becomes a full `generateImage` request; an object gets missing
`jsonrpc`/`id`/`method` fields defaulted and a missing `params` synthesized
from a truthy `prompt` or `parameters` field, returning `null` when
neither exists; property assignments on other primitives are silent no-ops
(and arrays carry no `prompt`/`parameters`), so those also return `null`. -/
def processRequest (request : JsonValue) (nowStr : String) : Option NormReq :=
  match request with
  | .jstr s =>
    some { id := .jstr nowStr, method := .jstr "mcp.invoke",
           params := some (.jobj [("tool", .jstr "generateImage"),
             ("parameters", .jobj [("prompt", .jstr (jsTrim s))])]) }
  | .jobj _ =>
    let id :=
      if truthyOpt (request.getField "id") then (request.getField "id").getD .jnull
      else .jstr nowStr
    let method :=
      if truthyOpt (request.getField "method") then (request.getField "method").getD .jnull
      else .jstr "mcp.invoke"
    if truthyOpt (request.getField "params") then
      some { id := id, method := method, params := request.getField "params" }
    else
      if truthyOpt (request.getField "prompt") ∨ truthyOpt (request.getField "parameters") then
        let parameters :=
          if truthyOpt (request.getField "prompt") then
            JsonValue.jobj [("prompt", (request.getField "prompt").getD .jnull)]
          else
            match request.getField "parameters" with
            | some v => if v.truthy then v else .jobj []
            | none => .jobj []
        some { id := id, method := method,
               params := some (.jobj [("tool", .jstr "generateImage"),
                 ("parameters", parameters)]) }
      else none
  | _ => none

/-- What the `rl.on('line')` handler of `part_003` (lines 848–939) decides
to do with one line. -/
inductive LineStep where
  | ignored
  | invokeHandler (parameters : Option JsonValue) (id : JsonValue)
  | toolNotFound (id : JsonValue) (tool : JsonValue)
  | forwardRawLine
  | forwardProcessed (req : NormReq)
  | dropNoParams
  | promptDupSkipped
  | unrecognizedFormat

/-- The `rl.on('line')` handler of `part_003` (lines 848–939): empty lines
are ignored; a parsed JSON-RPC 2.0 envelope with `method === 'mcp.invoke'`
and a truthy `params.tool` dispatches to `handleImageGeneration` (or a
`method_not_found` error for another tool), other well-formed envelopes
are forwarded verbatim; other JSON goes through `processRequest`; a line
that fails to parse and does not start with `{` is a plain-text prompt —
checked against `isPromptDuplicate` (recording its fingerprint) and, if
fresh, dispatched with `{ prompt: line.trim() }` and a timestamp id; the
rest is an `-32700` error. -/
def lineHandler (st : DedupState) (line : String) (now : Nat) (nowStr : String) :
    LineStep × DedupState :=
  if jsTrim line = "" then (.ignored, st)
  else
    match jsonParse line with
    | some jsonInput =>
      if isJstrField (jsonInput.getField "jsonrpc") "2.0" &&
         truthyOpt (jsonInput.getField "method") && truthyOpt (jsonInput.getField "id") then
        if isJstrField (jsonInput.getField "method") "mcp.invoke" &&
           truthyOpt (jsonInput.getField "params") &&
           truthyOpt ((jsonInput.getField "params").bind (fun p => p.getField "tool")) then
          let params := (jsonInput.getField "params").getD .jnull
          let tool := (params.getField "tool").getD .jnull
          let id := (jsonInput.getField "id").getD .jnull
          if isJstrField (some tool) "generateImage" then
            (.invokeHandler (params.getField "parameters") id, st)
          else (.toolNotFound id tool, st)
        else (.forwardRawLine, st)
      else
        match processRequest jsonInput nowStr with
        | some req =>
          if isJstrField (some req.method) "mcp.invoke" &&
             truthyOpt req.params &&
             isJstrField (req.params.bind (fun p => p.getField "tool")) "generateImage" then
            (.invokeHandler ((req.params.getD .jnull).getField "parameters") req.id, st)
          else (.forwardProcessed req, st)
        | none => (.dropNoParams, st)
    | none =>
      if ¬ jsStartsWith line "\x7b" then
        let pd := isPromptDuplicate now (some (jsTrim line)) st
        if pd.1 then (.promptDupSkipped, pd.2)
        else (.invokeHandler (some (.jobj [("prompt", .jstr (jsTrim line))])) (.jstr nowStr), pd.2)
      else (.unrecognizedFormat, st)

/-- One full trip of a line through the `part_003` pipeline: the line
handler followed, when it dispatches, by `handleImageGeneration`. -/
def processLine (st : DedupState) (line : String) (now : Nat)
    (nowStr timestampStr : String) (gen : TsResult) (saveFail : Option String) : Trace :=
  match lineHandler st line now nowStr with
  | (.invokeHandler parameters id, st1) =>
    handleImageGeneration st1 (paramsBag parameters) (jsonText id) now timestampStr gen saveFail
  | (.toolNotFound id tool, st1) =>
    ⟨st1, [.rpcError (jsonText id) (-32601) "method_not_found"
      ("Tool not found: " ++ jsonText tool)], [], []⟩
  | (.forwardRawLine, st1) => ⟨st1, [.rawLine line], [], []⟩
  | (.forwardProcessed _, st1) => ⟨st1, [.forwarded], [], []⟩
  | (.unrecognizedFormat, st1) =>
    ⟨st1, [.rpcError ("error-" ++ nowStr) (-32700) "parse_error"
      "Unrecognized input format"], [], []⟩
  | (_, st1) => ⟨st1, [], [], []⟩

end Part003

/-! ## Helper lemmas -/

theorem part003_promptDup_ids (now : Nat) (p : Option String) (st : DedupState) :
    ((Part003.isPromptDuplicate now p st).2).processedRequestIds = st.processedRequestIds := by
  unfold Part003.isPromptDuplicate
  cases p with
  | none => rfl
  | some s =>
    simp only
    split
    · rfl
    · split
      · split <;> rfl
      · rfl

theorem indexjs_promptDup_ids (now : Nat) (p : Option String) (st : DedupState) :
    ((IndexJs.isPromptDuplicate now p st).2).processedRequestIds = st.processedRequestIds := by
  unfold IndexJs.isPromptDuplicate
  cases p with
  | none => rfl
  | some s =>
    simp only
    split
    · rfl
    · split <;> rfl

theorem part003_dupGate_ids (now : Nat) (requestId : String) (ps : Params) (st : DedupState) :
    ((Part003.dupGate now requestId ps st).2).processedRequestIds = st.processedRequestIds := by
  unfold Part003.dupGate
  split
  · exact part003_promptDup_ids now (promptStr ps) st
  · rfl

theorem indexjs_promptGate_ids (now : Nat) (parameters : Option Params) (st : DedupState) :
    ((IndexJs.promptGate now parameters st).2).processedRequestIds = st.processedRequestIds := by
  unfold IndexJs.promptGate
  cases parameters with
  | none => rfl
  | some ps =>
    simp only
    split
    · split
      · exact indexjs_promptDup_ids _ _ _
      · rfl
    · rfl

theorem hasRequest_mark (st : DedupState) (requestId : String)
    (h : hasRequestBeenProcessed st requestId = false) :
    hasRequestBeenProcessed (markRequestAsProcessed st requestId) requestId = true := by
  unfold hasRequestBeenProcessed markRequestAsProcessed
  unfold hasRequestBeenProcessed at h
  rw [h]
  simp only [Bool.false_eq_true, if_false]
  cases hl : st.processedRequestIds with
  | nil => simp [hl, REQUEST_HISTORY_LIMIT]
  | cons x xs =>
    split
    all_goals simp

/-- `hasRequestBeenProcessed` only reads the id table. -/
theorem hasRequest_congr (st st' : DedupState) (requestId : String)
    (h : st.processedRequestIds = st'.processedRequestIds) :
    hasRequestBeenProcessed st requestId = hasRequestBeenProcessed st' requestId := by
  unfold hasRequestBeenProcessed
  rw [h]

/-- A request whose correlation id is already in the table is skipped with
no observable effect (`part_003`). -/
theorem part003_handle_skip (st : DedupState) (params : Option Params)
    (requestId : String) (now : Nat) (ts : String) (gen : TsResult) (sf : Option String)
    (h : hasRequestBeenProcessed st requestId = true) :
    Part003.handleImageGeneration st params requestId now ts gen sf = ⟨st, [], [], []⟩ := by
  unfold Part003.handleImageGeneration
  simp [h]

/-- A request whose correlation id is already in the table is skipped with
no observable effect (`index.js`). -/
theorem indexjs_handle_skip (st : DedupState) (params : Option Params)
    (requestId : String) (now : Nat) (ts : String) (gen : JsResult) (sf : Option String)
    (h : hasRequestBeenProcessed st requestId = true) :
    IndexJs.handleImageGeneration st params requestId now ts gen sf = ⟨st, [], [], []⟩ := by
  unfold IndexJs.handleImageGeneration
  simp [h]

/-- A first (fresh-id) invocation of the `part_003` handler writes exactly
one output line, on every control path. -/
theorem part003_handle_one_output (st : DedupState) (params : Option Params)
    (requestId : String) (now : Nat) (ts : String) (gen : TsResult) (sf : Option String)
    (h : hasRequestBeenProcessed st requestId = false) :
    (Part003.handleImageGeneration st params requestId now ts gen sf).outputs.length = 1 := by
  unfold Part003.handleImageGeneration
  simp only [h, Bool.false_eq_true, if_false]
  split
  · rfl
  · split
    · rfl
    · split
      · rfl
      · split <;> rfl

/-- After a fresh-id invocation of the `part_003` handler, the id table is
exactly the one `markRequestAsProcessed` produced, on every control path. -/
theorem part003_handle_state_ids (st : DedupState) (params : Option Params)
    (requestId : String) (now : Nat) (ts : String) (gen : TsResult) (sf : Option String)
    (h : hasRequestBeenProcessed st requestId = false) :
    (Part003.handleImageGeneration st params requestId now ts gen sf).state.processedRequestIds =
      (markRequestAsProcessed st requestId).processedRequestIds := by
  unfold Part003.handleImageGeneration
  simp only [h, Bool.false_eq_true, if_false]
  have e := part003_dupGate_ids now requestId
    (Part003.promoteRandomString (params.getD [])) (markRequestAsProcessed st requestId)
  split
  · exact e
  · split
    · exact e
    · split
      · exact e
      · split <;> exact e

/-- After a fresh-id invocation of the `part_003` handler, the id is in the
table. -/
theorem part003_handle_state_contains (st : DedupState) (params : Option Params)
    (requestId : String) (now : Nat) (ts : String) (gen : TsResult) (sf : Option String)
    (h : hasRequestBeenProcessed st requestId = false) :
    hasRequestBeenProcessed
      (Part003.handleImageGeneration st params requestId now ts gen sf).state requestId = true := by
  rw [hasRequest_congr _ _ _ (part003_handle_state_ids st params requestId now ts gen sf h)]
  exact hasRequest_mark st requestId h

/-- A fresh-id invocation of the `index.js` handler that is not suppressed
by the prompt gate writes exactly one output line, on every control
path. -/
theorem indexjs_handle_one_output (st : DedupState) (params : Option Params)
    (requestId : String) (now : Nat) (ts : String) (gen : JsResult) (sf : Option String)
    (h1 : hasRequestBeenProcessed st requestId = false)
    (h2 : (IndexJs.promptGate now params st).1 = false) :
    (IndexJs.handleImageGeneration st params requestId now ts gen sf).outputs.length = 1 := by
  unfold IndexJs.handleImageGeneration
  simp only [h1, h2, Bool.false_eq_true, if_false]
  split
  · rfl
  · split
    · split <;> rfl
    · rfl

/-- A prompt-duplicate rejection in the `index.js` handler is silent: no
output, no generation call, no marking of the id. -/
theorem indexjs_handle_prompt_dup (st : DedupState) (params : Option Params)
    (requestId : String) (now : Nat) (ts : String) (gen : JsResult) (sf : Option String)
    (h1 : hasRequestBeenProcessed st requestId = false)
    (h2 : (IndexJs.promptGate now params st).1 = true) :
    IndexJs.handleImageGeneration st params requestId now ts gen sf =
      ⟨(IndexJs.promptGate now params st).2, [], [], []⟩ := by
  unfold IndexJs.handleImageGeneration
  simp [h1, h2]

/-! ## The claims -/

/-- **C1.** Two requests submitted with the same correlation id in rapid
succession: the handler processes the first (emitting exactly one response
for it, and recording the id), and the second invocation — arriving while
the id is still in the seen-id table — returns early with no generation
call and no output.  Proved for both bridge drafts; for the `index.js`
draft the single-emission part additionally assumes its prompt-duplicate
gate does not fire on the first request (that draft drops prompt
duplicates silently; see C5). -/
theorem claim_C1_duplicate_id_single_response
    (st st2 : DedupState) (params params2 params3 params4 : Option Params)
    (requestId : String) (now now2 now3 now4 : Nat) (ts ts2 ts3 ts4 : String)
    (gen gen2 : TsResult) (genJ genJ2 : JsResult) (sf sf2 sf3 sf4 : Option String)
    (h1 : hasRequestBeenProcessed st requestId = false)
    (h2 : hasRequestBeenProcessed st2 requestId = true) :
    (Part003.handleImageGeneration st params requestId now ts gen sf).outputs.length = 1 ∧
    hasRequestBeenProcessed
      (Part003.handleImageGeneration st params requestId now ts gen sf).state requestId = true ∧
    Part003.handleImageGeneration st2 params2 requestId now2 ts2 gen2 sf2 = ⟨st2, [], [], []⟩ ∧
    IndexJs.handleImageGeneration st2 params3 requestId now3 ts3 genJ sf3 = ⟨st2, [], [], []⟩ ∧
    ((IndexJs.promptGate now4 params4 st).1 = false →
      (IndexJs.handleImageGeneration st params4 requestId now4 ts4 genJ2 sf4).outputs.length = 1) :=
  ⟨part003_handle_one_output st params requestId now ts gen sf h1,
   part003_handle_state_contains st params requestId now ts gen sf h1,
   part003_handle_skip st2 params2 requestId now2 ts2 gen2 sf2 h2,
   indexjs_handle_skip st2 params3 requestId now3 ts3 genJ sf3 h2,
   fun h3 => indexjs_handle_one_output st params4 requestId now4 ts4 genJ2 sf4 h1 h3⟩

/-- Witness for C1 at concrete inputs: the fresh first request emits one
line, and the replayed id is dropped with no effect. -/
theorem claim_C1_witness :
    (Part003.handleImageGeneration DedupState.empty (some [("prompt", JsonValue.jstr "cat")])
        "id1" 1000 "ts" ⟨false, none, some "QUJD"⟩ none).outputs.length = 1 ∧
    Part003.handleImageGeneration ⟨["id1"], []⟩ (some [("prompt", JsonValue.jstr "cat")])
        "id1" 1200 "t2" ⟨false, none, some "QUJD"⟩ none = ⟨⟨["id1"], []⟩, [], [], []⟩ := by
  have h := claim_C1_duplicate_id_single_response DedupState.empty ⟨["id1"], []⟩
    (some [("prompt", JsonValue.jstr "cat")]) (some [("prompt", JsonValue.jstr "cat")])
    (some [("prompt", JsonValue.jstr "cat")]) (some [("prompt", JsonValue.jstr "cat")])
    "id1" 1000 1200 1200 1000 "ts" "t2" "t2" "ts"
    ⟨false, none, some "QUJD"⟩ ⟨false, none, some "QUJD"⟩
    ⟨200, some ["QUJD"], none, none⟩ ⟨200, some ["QUJD"], none, none⟩
    none none none none rfl rfl
  exact ⟨h.1, h.2.2.1⟩

/-- **C9.** In the `part_003` handler, an accepted request's correlation id
is inserted into the seen-id table before the generation call begins
(every generation call sees a table already containing the id), the id
stays in the table when generation fails, and every output of the failed
run is an error envelope — yet a later resubmission under the same id is
skipped with no generation call and no output. -/
theorem claim_C9_failed_id_never_reprocessed
    (st : DedupState) (params params2 : Option Params) (requestId : String)
    (now now2 : Nat) (ts ts2 : String) (gen gen2 : TsResult) (sf sf2 : Option String)
    (h1 : hasRequestBeenProcessed st requestId = false)
    (h2 : gen.isError = true) :
    (∀ c ∈ (Part003.handleImageGeneration st params requestId now ts gen sf).genCalls,
        hasRequestBeenProcessed c.tableAtCall requestId = true) ∧
    hasRequestBeenProcessed
      (Part003.handleImageGeneration st params requestId now ts gen sf).state requestId = true ∧
    (∀ o ∈ (Part003.handleImageGeneration st params requestId now ts gen sf).outputs,
        ∃ m, o = .rpcResult requestId (createErrorResponse m)) ∧
    Part003.handleImageGeneration
        (Part003.handleImageGeneration st params requestId now ts gen sf).state
        params2 requestId now2 ts2 gen2 sf2 =
      ⟨(Part003.handleImageGeneration st params requestId now ts gen sf).state, [], [], []⟩ := by
  have hcontains := part003_handle_state_contains st params requestId now ts gen sf h1
  have e := part003_dupGate_ids now requestId
    (Part003.promoteRandomString (params.getD [])) (markRequestAsProcessed st requestId)
  have hm := hasRequest_mark st requestId h1
  refine ⟨?_, hcontains, ?_, part003_handle_skip _ params2 requestId now2 ts2 gen2 sf2 hcontains⟩
  · unfold Part003.handleImageGeneration
    simp only [h1, Bool.false_eq_true, if_false, h2, if_true]
    split
    · intro c hc
      simp at hc
    · intro c hc
      simp only [List.mem_singleton] at hc
      subst hc
      rw [hasRequest_congr _ _ _ e]
      exact hm
  · unfold Part003.handleImageGeneration
    simp only [h1, Bool.false_eq_true, if_false, h2, if_true]
    split
    · intro o ho
      simp only [List.mem_singleton] at ho
      exact ⟨"Duplicate request detected and skipped", ho⟩
    · intro o ho
      simp only [List.mem_singleton] at ho
      exact ⟨gen.errorMessage.getD "undefined", ho⟩

/-- Witness for C9 at concrete inputs: after a failed generation for
`idZ`, the id is recorded and the resubmission is dropped. -/
theorem claim_C9_witness :
    hasRequestBeenProcessed
      (Part003.handleImageGeneration DedupState.empty (some [("prompt", JsonValue.jstr "dog")])
        "idZ" 1000 "ts" ⟨true, some "boom", none⟩ none).state "idZ" = true ∧
    Part003.handleImageGeneration
        (Part003.handleImageGeneration DedupState.empty (some [("prompt", JsonValue.jstr "dog")])
          "idZ" 1000 "ts" ⟨true, some "boom", none⟩ none).state
        (some [("prompt", JsonValue.jstr "dog")]) "idZ" 1500 "t2" ⟨true, some "boom", none⟩ none =
      ⟨(Part003.handleImageGeneration DedupState.empty (some [("prompt", JsonValue.jstr "dog")])
          "idZ" 1000 "ts" ⟨true, some "boom", none⟩ none).state, [], [], []⟩ := by
  have h := claim_C9_failed_id_never_reprocessed DedupState.empty
    (some [("prompt", JsonValue.jstr "dog")]) (some [("prompt", JsonValue.jstr "dog")])
    "idZ" 1000 1500 "ts" "t2" ⟨true, some "boom", none⟩ ⟨true, some "boom", none⟩ none none
    rfl rfl
  exact ⟨h.2.1, h.2.2.2⟩

/-- **C2 (code bug).** The claim (and spec §8) says a plain-text prompt
submitted once or twice within the suppression window triggers exactly one
generation call.  In the code, zero generation calls ever happen for a
plain-text line: the line handler records the prompt fingerprint inside
its `isPromptDuplicate` pre-check, and `handleImageGeneration` immediately
re-checks the same fingerprint — now 0 ms old, well inside the 2000 ms
window — flags the request as a duplicate (its id, a timestamp string,
never contains `retry`), and answers with a duplicate-detected error
envelope instead of calling the generation service.  Evaluated at the
failing input, the plain-text line `a red bicycle` on a fresh state at
t = 1000: no generation call and the duplicate envelope, for every
generation-service and save outcome.  (The `index.js` draft behaves the
same way, except its handler drops the request silently.) -/
theorem claim_C2_plain_text_never_generates (gen : TsResult) (sf : Option String) :
    (Part003.processLine DedupState.empty "a red bicycle" 1000 "1000" "ts" gen sf).genCalls = [] ∧
    (Part003.processLine DedupState.empty "a red bicycle" 1000 "1000" "ts" gen sf).outputs =
      [.rpcResult "1000" (createErrorResponse "Duplicate request detected and skipped")] :=
  ⟨rfl, rfl⟩

/-- **C3 (code bug).** The claim — and the loop's own comment, "Only retry
on 5xx errors, not on 4xx errors" — says a 4xx generation response is
terminal on the first attempt, returned with the server-reported message.
But the `DrawThingsService` constructor in `drawThingsService.ts` (lines
46–50) creates its axios instance without a `validateStatus`, so axios's
default (resolve 2xx only) delivers a 4xx response as a rejection; the
rejection lands in the retry loop's catch block, which retries
unconditionally, leaving the loop's 4xx break unreachable.  Evaluated at
three consecutive 400 responses: the POST is issued 3 times (not once) and
the surfaced message is axios's "Request failed with status code 400",
not the server's "bad prompt".  Under the `validateStatus` that the
sibling `drawThingsService.js` configures, the same loop would stop after
one POST with the server-reported message, matching the claim.  The 5xx
half of the claim (retried up to the maximum of 3 attempts, then an error
result) does hold. -/
theorem claim_C3_4xx_retried_bug :
    (TsService.generateImageRetry tsValidateStatus
        (fun _ => .response 400 [] (some "bad prompt")) false).2.1 = 3 ∧
    (TsService.generateImageRetry tsValidateStatus
        (fun _ => .response 400 [] (some "bad prompt")) false).1 =
      ⟨true, some "Request failed with status code 400", none⟩ ∧
    (TsService.generateImageRetry jsValidateStatus
        (fun _ => .response 400 [] (some "bad prompt")) false).2.1 = 1 ∧
    (TsService.generateImageRetry jsValidateStatus
        (fun _ => .response 400 [] (some "bad prompt")) false).1 =
      ⟨true, some "API returned error status: 400: bad prompt", none⟩ ∧
    (TsService.generateImageRetry tsValidateStatus
        (fun _ => .response 500 [] (some "boom")) false).2.1 = 3 ∧
    (TsService.generateImageRetry tsValidateStatus
        (fun _ => .response 500 [] (some "boom")) false).1.isError = true :=
  ⟨rfl, rfl, rfl, rfl, rfl, rfl⟩

/-- **C4.** If the connection probe fails (`checkApiConnection` returns
false), `generateImage` of `drawThingsService.js` returns the
service-unavailable error result (status 503) and never issues the
generation POST for that call. -/
theorem claim_C4_probe_failure_no_post (env : JsService.GenEnv)
    (h : (JsService.checkApiConnection env.probe).1 = false) :
    (JsService.generateImage env).1.status = 503 ∧
    (JsService.generateImage env).1.error.isSome = true ∧
    (JsService.generateImage env).2 = 0 := by
  unfold JsService.generateImage
  simp [h]

/-- Witness for C4: with both probe endpoints refusing the connection, the
probe reports failure and the call returns 503 with zero POSTs. -/
theorem claim_C4_witness :
    (JsService.checkApiConnection ⟨false, .transportError "ECONNREFUSED" "refused",
        .transportError "ECONNREFUSED" "refused"⟩).1 = false ∧
    (JsService.generateImage ⟨⟨false, .transportError "ECONNREFUSED" "refused",
        .transportError "ECONNREFUSED" "refused"⟩, some [], .response 200 ["QUJD"] none, 7⟩).1.status = 503 ∧
    (JsService.generateImage ⟨⟨false, .transportError "ECONNREFUSED" "refused",
        .transportError "ECONNREFUSED" "refused"⟩, some [], .response 200 ["QUJD"] none, 7⟩).2 = 0 := by
  have h := claim_C4_probe_failure_no_post
    ⟨⟨false, .transportError "ECONNREFUSED" "refused",
      .transportError "ECONNREFUSED" "refused"⟩, some [], .response 200 ["QUJD"] none, 7⟩ rfl
  exact ⟨rfl, h.1, h.2.2⟩

/-- **C5 counterexample.** A request rejected by the prompt-fingerprint
check is not silent in the `part_003` handler: with the fingerprint `cat`
recorded 100 ms earlier, the handler writes a duplicate-detected error
envelope to the output stream, refuting "produces no output line at
all". -/
theorem claim_C5_counterexample :
    (Part003.handleImageGeneration ⟨[], [("cat", 900)]⟩ (some [("prompt", JsonValue.jstr "cat")])
        "id7" 1000 "ts" ⟨true, some "e", none⟩ none).outputs =
      [.rpcResult "id7" (createErrorResponse "Duplicate request detected and skipped")] := rfl

/-- **C5 (amended).** A request rejected by an already-seen correlation id
produces no output in either draft, and a prompt-fingerprint rejection is
silent in the `index.js` handler; but in the `part_003` handler a
prompt-fingerprint rejection emits one `Duplicate request detected and
skipped` error envelope (still with no generation call). -/
theorem claim_C5_amended
    (st st2 st3 : DedupState) (params params2 params3 : Option Params)
    (requestId id2 id3 : String) (now now2 now3 : Nat) (ts ts2 ts3 : String)
    (gen gen3 : TsResult) (genJ genJ2 : JsResult) (sf sf2 sf3 sf4 : Option String)
    (h1 : hasRequestBeenProcessed st requestId = true)
    (h2 : hasRequestBeenProcessed st2 id2 = false)
    (h3 : (IndexJs.promptGate now2 params2 st2).1 = true)
    (h4 : hasRequestBeenProcessed st3 id3 = false)
    (h5 : (Part003.dupGate now3 id3 (Part003.promoteRandomString (params3.getD []))
            (markRequestAsProcessed st3 id3)).1 = true) :
    Part003.handleImageGeneration st params requestId now ts gen sf = ⟨st, [], [], []⟩ ∧
    IndexJs.handleImageGeneration st params requestId now ts genJ sf2 = ⟨st, [], [], []⟩ ∧
    (IndexJs.handleImageGeneration st2 params2 id2 now2 ts2 genJ2 sf3).outputs = [] ∧
    (IndexJs.handleImageGeneration st2 params2 id2 now2 ts2 genJ2 sf3).genCalls = [] ∧
    (Part003.handleImageGeneration st3 params3 id3 now3 ts3 gen3 sf4).outputs =
      [.rpcResult id3 (createErrorResponse "Duplicate request detected and skipped")] ∧
    (Part003.handleImageGeneration st3 params3 id3 now3 ts3 gen3 sf4).genCalls = [] := by
  have hj := indexjs_handle_prompt_dup st2 params2 id2 now2 ts2 genJ2 sf3 h2 h3
  refine ⟨part003_handle_skip st params requestId now ts gen sf h1,
    indexjs_handle_skip st params requestId now ts genJ sf2 h1,
    by rw [hj], by rw [hj], ?_, ?_⟩
  · unfold Part003.handleImageGeneration
    simp [h4, h5]
  · unfold Part003.handleImageGeneration
    simp [h4, h5]

/-- Witness for C5 (amended) at concrete inputs. -/
theorem claim_C5_witness :
    Part003.handleImageGeneration ⟨["a1"], []⟩ (some [("prompt", JsonValue.jstr "x")])
        "a1" 1000 "ts" ⟨true, some "e", none⟩ none = ⟨⟨["a1"], []⟩, [], [], []⟩ ∧
    (IndexJs.handleImageGeneration ⟨[], [("cat", 900)]⟩ (some [("prompt", JsonValue.jstr "cat")])
        "b1" 1000 "t2" ⟨200, some ["i"], none, none⟩ none).outputs = [] ∧
    (Part003.handleImageGeneration ⟨[], [("cat", 900)]⟩ (some [("prompt", JsonValue.jstr "cat")])
        "id7" 1000 "t3" ⟨true, some "e", none⟩ none).genCalls = [] := by
  have h := claim_C5_amended ⟨["a1"], []⟩ ⟨[], [("cat", 900)]⟩ ⟨[], [("cat", 900)]⟩
    (some [("prompt", JsonValue.jstr "x")]) (some [("prompt", JsonValue.jstr "cat")])
    (some [("prompt", JsonValue.jstr "cat")])
    "a1" "b1" "id7" 1000 1000 1000 "ts" "t2" "t3"
    ⟨true, some "e", none⟩ ⟨true, some "e", none⟩
    ⟨200, some ["i"], none, none⟩ ⟨200, some ["i"], none, none⟩
    none none none none rfl rfl rfl rfl rfl
  exact ⟨h.1, h.2.2.1, h.2.2.2.2.2⟩

/-- **C6 counterexample.** In the `part_003` bridge handler, a failed image
save after a successful generation turns the response into an error
envelope, refuting "the save failure … never turns the response into an
error envelope". -/
theorem claim_C6_counterexample :
    (Part003.handleImageGeneration DedupState.empty
        (some [("prompt", JsonValue.jstr "cat"), ("seed", JsonValue.jnum "1")])
        "id9" 1000 "ts" ⟨false, none, some "data:image/png;base64,QUJD"⟩ (some "disk full")).outputs =
      [.rpcResult "id9" (createErrorResponse "Failed to save image: disk full")] := rfl

/-- **C6 (amended).** In the `index.js` handler (and in the MCP tool
callback of both drafts) a failed image save is non-fatal: the success
envelope carrying the image data is still written, the failure being only
logged; the `part_003` bridge handler diverges and emits a `Failed to save
image` error envelope instead (see the counterexample). -/
theorem claim_C6_amended (st : DedupState) (params : Option Params) (requestId : String)
    (now : Nat) (ts : String) (status : Nat) (img : String) (imgs : List String) (msg : String)
    (h1 : hasRequestBeenProcessed st requestId = false)
    (h2 : (IndexJs.promptGate now params st).1 = false)
    (h3 : status < 400) :
    (IndexJs.handleImageGeneration st params requestId now ts
        ⟨status, some (img :: imgs), none, none⟩ (some msg)).outputs =
      [.rpcResult requestId (createImageResponse img)] ∧
    (IndexJs.handleImageGeneration st params requestId now ts
        ⟨status, some (img :: imgs), none, none⟩ (some msg)).fileWrites = [] := by
  unfold IndexJs.handleImageGeneration
  simp only [h1, h2, Bool.false_eq_true, if_false]
  rw [if_neg]
  · exact ⟨rfl, rfl⟩
  · simp
    omega

/-- Witness for C6 (amended) at concrete inputs. -/
theorem claim_C6_witness :
    (IndexJs.handleImageGeneration DedupState.empty (some [("prompt", JsonValue.jstr "cat")])
        "idS" 1000 "ts" ⟨200, some ["QUJD"], none, none⟩ (some "disk full")).outputs =
      [.rpcResult "idS" (createImageResponse "QUJD")] := by
  have h := claim_C6_amended DedupState.empty (some [("prompt", JsonValue.jstr "cat")])
    "idS" 1000 "ts" 200 "QUJD" [] "disk full" rfl rfl (by decide)
  exact h.1

/-- **C7.** Round-trip between the saved file and the emitted envelope in
the `part_003` handler: every file write the handler performs pairs the
path reported in the response's `imageSavedPath` with exactly the base64
decoding of that response's `content[0].data` (both the save and the
envelope use the same image-data string, for instance the
`data:image/png;base64,`-prefixed payload the TypeScript service's
success path produces). -/
theorem claim_C7_roundtrip (st : DedupState) (params : Option Params) (requestId : String)
    (now : Nat) (ts : String) (gen : TsResult) (sf : Option String) :
    ∀ pw ∈ (Part003.handleImageGeneration st params requestId now ts gen sf).fileWrites,
      ∃ d path,
        (Part003.handleImageGeneration st params requestId now ts gen sf).outputs =
          [.rpcResult requestId ⟨.imageContent d "image/png", false, some path⟩] ∧
        pw.1 = path ∧ pw.2 = base64Decode d := by
  intro pw hpw
  unfold Part003.handleImageGeneration at hpw ⊢
  by_cases h0 : hasRequestBeenProcessed st requestId = true
  · simp [h0] at hpw
  · by_cases hg : (Part003.dupGate now requestId
        (Part003.promoteRandomString (params.getD []))
        (markRequestAsProcessed st requestId)).1 = true
    · simp [h0, hg] at hpw
    · by_cases he : gen.isError = true
      · simp [h0, hg, he] at hpw
      · by_cases hi : gen.imageData = none ∨ gen.imageData = some ""
        · simp only [h0, Bool.false_eq_true, if_false, hg, he, if_pos hi] at hpw
          simp at hpw
        · cases sf with
          | none =>
            simp only [h0, Bool.false_eq_true, if_false, hg, he,
              if_neg hi, List.mem_singleton] at hpw
            simp only [h0, Bool.false_eq_true, if_false, hg, he, if_neg hi]
            subst hpw
            exact ⟨_, _, rfl, rfl, rfl⟩
          | some m =>
            simp only [h0, Bool.false_eq_true, if_false, hg, he, if_neg hi] at hpw
            simp at hpw

/-- Witness for C7: one concrete successful run, whose single file write
carries the decoded envelope payload at the reported path. -/
theorem claim_C7_witness :
    ∃ d path,
      (Part003.handleImageGeneration DedupState.empty (some [("prompt", JsonValue.jstr "cat")])
          "idW" 1000 "ts" ⟨false, none, some "data:image/png;base64,QUJD"⟩ none).outputs =
        [.rpcResult "idW" ⟨.imageContent d "image/png", false, some path⟩] ∧
      ("images/cat_ts.png", base64Decode "data:image/png;base64,QUJD").1 = path ∧
      ("images/cat_ts.png", base64Decode "data:image/png;base64,QUJD").2 = base64Decode d :=
  claim_C7_roundtrip DedupState.empty (some [("prompt", JsonValue.jstr "cat")]) "idW" 1000 "ts"
    ⟨false, none, some "data:image/png;base64,QUJD"⟩ none
    ("images/cat_ts.png", base64Decode "data:image/png;base64,QUJD") (by decide)

/-- **C8 counterexample.** The input line `42` is non-empty and does not
start with `{`, yet normalization does not produce a prompt request at
all: `JSON.parse("42")` succeeds, the JSON-RPC checks fail, and
`processRequest` finds no usable parameters, so the line is dropped with
no generation call. -/
theorem claim_C8_counterexample :
    (Part003.lineHandler DedupState.empty "42" 1000 "1000").1 =
      Part003.LineStep.dropNoParams ∧
    (Part003.processLine DedupState.empty "42" 1000 "1000" "ts"
        ⟨true, some "e", none⟩ none).genCalls = [] :=
  ⟨rfl, rfl⟩

/-- **C8 (amended).** For every non-empty input line that fails JSON
parsing (and hence in particular does not start with `{`), normalization
yields a request whose only generation parameter is a prompt equal to the
line with surrounding whitespace trimmed, and — when the line handler's
prompt-duplicate check does not suppress it — that request is dispatched
to the image-generation request handler with a fresh timestamp id (the
handler's own duplicate re-check, settled in C2, still stands between it
and the generation client). -/
theorem claim_C8_amended (st : DedupState) (line : String) (now : Nat) (nowStr : String)
    (h1 : jsonParse line = none)
    (h2 : jsStartsWith line "\x7b" = false)
    (h3 : jsTrim line ≠ "")
    (h4 : (Part003.isPromptDuplicate now (some (jsTrim line)) st).1 = false) :
    (Part003.lineHandler st line now nowStr).1 =
      Part003.LineStep.invokeHandler
        (some (.jobj [("prompt", .jstr (jsTrim line))])) (.jstr nowStr) := by
  unfold Part003.lineHandler
  simp [h1, h2, h3, h4]

/-- Witness for C8 (amended): the plain-text line `A red bicycle` is
normalized to a `prompt`-only request and dispatched. -/
theorem claim_C8_witness :
    (Part003.lineHandler DedupState.empty "A red bicycle" 1000 "1000").1 =
      Part003.LineStep.invokeHandler
        (some (.jobj [("prompt", .jstr (jsTrim "A red bicycle"))])) (.jstr "1000") :=
  claim_C8_amended DedupState.empty "A red bicycle" 1000 "1000" rfl rfl (by decide) rfl

/-- **C10.** `generateImage` of `drawThingsService.js` is total in its
error handling: the embedding is a total function (no branch can throw —
every path of the source returns a schema-parse of a well-typed literal),
and for every environment, including ones whose parameter validation
fails, the result carries either an error message or a non-empty images
array, with 503 for a connection-refused POST, 504 for a timeout, 500 for
any other thrown error, the server's own status for a served 4xx/5xx, and
503 when the connection probe already failed. -/
theorem claim_C10_total_error_mapping (env : JsService.GenEnv) :
    ((∃ e, (JsService.generateImage env).1.error = some e) ∨
      (∃ img imgs, (JsService.generateImage env).1.images = some (img :: imgs))) ∧
    (∀ msg, (JsService.checkApiConnection env.probe).1 = true →
      env.postOutcome = .transportError "ECONNREFUSED" msg →
      (JsService.generateImage env).1.status = 503) ∧
    (∀ msg, (JsService.checkApiConnection env.probe).1 = true →
      env.postOutcome = .transportError "ETIMEDOUT" msg →
      (JsService.generateImage env).1.status = 504) ∧
    (∀ code msg, (JsService.checkApiConnection env.probe).1 = true →
      code ≠ "ECONNREFUSED" → code ≠ "ETIMEDOUT" →
      env.postOutcome = .transportError code msg →
      (JsService.generateImage env).1.status = 500) ∧
    (∀ s imgs err, (JsService.checkApiConnection env.probe).1 = true →
      400 ≤ s → env.postOutcome = .response s imgs err →
      (JsService.generateImage env).1.status = s) ∧
    ((JsService.checkApiConnection env.probe).1 = false →
      (JsService.generateImage env).1.status = 503) := by
  cases hcb : (JsService.checkApiConnection env.probe).1 with
  | false =>
    have hg : JsService.generateImage env =
        ({ status := 503, images := none, parameters := none,
           error := some "Draw Things API is not running or cannot be connected. Please make sure Draw Things is running and the API is enabled." }, 0) := by
      unfold JsService.generateImage
      simp [hcb]
    refine ⟨Or.inl ⟨_, by rw [hg]⟩, ?_, ?_, ?_, ?_, fun _ => by rw [hg]⟩
    · intro msg hct hp
      simp [hcb] at hct
    · intro msg hct hp
      simp [hcb] at hct
    · intro code msg hct h1 h2 hp
      simp [hcb] at hct
    · intro s imgs err hct h4 hp
      simp [hcb] at hct
  | true =>
    refine ⟨?_, ?_, ?_, ?_, ?_, ?_⟩
    · unfold JsService.generateImage
      simp only [hcb]
      rw [if_neg (by simp)]
      cases hp : env.postOutcome with
      | response s imgs err =>
        simp only [axiosDeliver]
        by_cases hv : jsValidateStatus s = true
        · simp only [hv, if_true]
          by_cases h4 : 400 ≤ s
          · simp only [if_pos h4]
            exact Or.inl ⟨_, rfl⟩
          · simp only [if_neg h4]
            cases imgs with
            | nil => exact Or.inl ⟨_, rfl⟩
            | cons i rest => exact Or.inr ⟨i, rest, rfl⟩
        · simp only [Bool.not_eq_true] at hv
          simp only [hv, Bool.false_eq_true, if_false]
          exact Or.inl ⟨_, rfl⟩
      | transportError code msg =>
        simp only [axiosDeliver]
        by_cases h1 : code = "ECONNREFUSED"
        · rw [if_pos h1]
          exact Or.inl ⟨_, rfl⟩
        · rw [if_neg h1]
          by_cases h2 : code = "ETIMEDOUT"
          · rw [if_pos h2]
            exact Or.inl ⟨_, rfl⟩
          · rw [if_neg h2]
            exact Or.inl ⟨_, rfl⟩
    · intro msg _ hp
      unfold JsService.generateImage
      simp [hcb, hp, axiosDeliver]
    · intro msg _ hp
      unfold JsService.generateImage
      simp [hcb, hp, axiosDeliver]
    · intro code msg _ hne hnt hp
      unfold JsService.generateImage
      simp [hcb, hp, axiosDeliver, hne, hnt]
    · intro s imgs err _ h4 hp
      unfold JsService.generateImage
      simp only [hcb, hp]
      rw [if_neg (by simp)]
      simp only [axiosDeliver]
      by_cases hv : jsValidateStatus s = true
      · simp only [hv, if_true, if_pos h4]
      · simp only [Bool.not_eq_true] at hv
        simp only [hv, Bool.false_eq_true, if_false]
    · intro hfalse
      exact absurd hfalse (by simp)

/-- Witness for C10 at concrete inputs: a connected probe with a refused
POST yields 503, and a timed-out POST yields 504. -/
theorem claim_C10_witness :
    (JsService.generateImage ⟨⟨true, .response 200 [] none, .response 200 [] none⟩,
        none, .transportError "ECONNREFUSED" "refused", 7⟩).1.status = 503 ∧
    (JsService.generateImage ⟨⟨true, .response 200 [] none, .response 200 [] none⟩,
        none, .transportError "ETIMEDOUT" "timed out", 7⟩).1.status = 504 := by
  have h1 := claim_C10_total_error_mapping ⟨⟨true, .response 200 [] none, .response 200 [] none⟩,
    none, .transportError "ECONNREFUSED" "refused", 7⟩
  have h2 := claim_C10_total_error_mapping ⟨⟨true, .response 200 [] none, .response 200 [] none⟩,
    none, .transportError "ETIMEDOUT" "timed out", 7⟩
  exact ⟨h1.2.1 "refused" rfl rfl, h2.2.2.1 "timed out" rfl rfl⟩

end DrawThingsMCP
